import Mathlib

/-!
Shallow embedding of `src/key_counter_daemon/src/main.rs`.

The daemon keeps a mutex-guarded `AppState`; listener threads call
`process_key_event` for each key press, which mutates the state, performs
persistence writes and sends audio commands over an mpsc channel; bonus
activation spawns a `decrementer_loop` thread that ticks once per second.

Embedding choices:
- All state mutation happens under one lock, and the decrementer is the only
  mutator while `is_decrementing` is true, so each dispatch / tick is modelled
  as a pure function on `AppState`.
- Machine integers (`u32` counter and buffers, `u8` backslash_count) are
  modelled as `Nat`.  No claim comes anywhere near `2^32`; `backslash_count`
  is reset whenever it reaches 3, so wrap-around is unreachable in every
  scenario considered and is not modelled.
- `rand::thread_rng().gen_range(lo..=hi)` is modelled by an oracle draw
  `r : Nat` mapped into the inclusive range as `lo + r % (hi + 1 - lo)`,
  which is exactly the set of values `gen_range` can return.
- Fallible externals (`write_to_file`, `Sender::send`) are modelled by an
  environment `Env` of success predicates.  A dispatch returns the mutated
  state, the ordered list of side effects that actually happened, and a
  success flag (`false` = the Rust function returned `Err` via `?`).
-/

namespace KeyCounterDaemon

/-- `enum GameMode { Test, Normal, Hard }` from main.rs. -/
inductive GameMode where
  | Test
  | Normal
  | Hard
deriving DecidableEq

/-- `struct AppState` from main.rs (field names kept). -/
structure AppState where
  counter : Nat
  backslash_count : Nat
  is_decrementing : Bool
  keystroke_buffer : Nat
  target_keystrokes : Nat
  game_mode : GameMode
deriving DecidableEq

/-- `enum AudioCommand` from main.rs. -/
inductive AudioCommand where
  | Play (paths : List String)
  | PlayAndLoop (intro looping : String)
  | Stop
deriving DecidableEq

/-- `const COUNTER_FILE` from main.rs. -/
def COUNTER_FILE : String := "/tmp/waybar_counter.txt"

/-- `const WORKSPACE_STATE_FILE` from main.rs. -/
def WORKSPACE_STATE_FILE : String := "/tmp/waybar_status.txt"

/-- `const SPECIAL_MODE_SOUND_1` from main.rs. -/
def SPECIAL_MODE_SOUND_1 : String := "/home/jake/Music/Super-Sonic-Transform.mp3"

/-- `const SPECIAL_MODE_SOUND_2` from main.rs. -/
def SPECIAL_MODE_SOUND_2 : String := "/home/jake/Music/Super-sonic-song.mp3"

/-- `const INCREMENT_SOUND` from main.rs. -/
def INCREMENT_SOUND : String := "/home/jake/Music/Sonic-Ring.mp3"

/-- `Key::KEY_ESC.code()` (evdev key code 1, per the comment in main.rs). -/
def KEY_ESC : Nat := 1

/-- `Key::KEY_BACKSLASH.code()` (evdev key code 43, per the comment in main.rs). -/
def KEY_BACKSLASH : Nat := 43

/-- An observable side effect of a dispatch or a timer tick, in program order:
a successful `write_to_file`, a successful `audio_tx.send`, or the
`thread::spawn(decrementer_loop)` call. -/
inductive Effect where
  | writeFile (path content : String)
  | sendAudio (cmd : AudioCommand)
  | spawnDecrementer
deriving DecidableEq

/-- Environment of the fallible externals: whether `write_to_file path content`
succeeds and whether `audio_tx.send cmd` succeeds. -/
structure Env where
  writeOk : String → String → Bool
  sendOk : AudioCommand → Bool

/-- `rand::thread_rng().gen_range(lo..=hi)` with oracle draw `r`: some value in
the inclusive range `[lo, hi]`. -/
def gen_range (lo hi r : Nat) : Nat := lo + r % (hi + 1 - lo)

/-- The per-mode redraw of `target_keystrokes` (the `match state_guard.game_mode`
at lines 208-212 of main.rs). -/
def draw_target (m : GameMode) (r : Nat) : Nat :=
  match m with
  | GameMode.Test => 1
  | GameMode.Normal => gen_range 1 100 r
  | GameMode.Hard => gen_range 1 1000 r

/-- `process_key_event` (main.rs lines 153-228).  Returns the state after the
call, the effects that actually happened in order, and `true` iff the Rust
function returned `Ok(())` (a failed write or send makes `?` return early,
keeping the mutations already applied to the guarded state). -/
def process_key_event (env : Env) (key_code : Nat) (st : AppState) (r : Nat) :
    AppState × List Effect × Bool :=
  if key_code = KEY_ESC then
    if env.sendOk AudioCommand.Stop then
      (st, [Effect.sendAudio AudioCommand.Stop], true)
    else
      (st, [], false)
  else if st.is_decrementing then
    (st, [], true)
  else if key_code = KEY_BACKSLASH ∧ 50 ≤ st.counter then
    let st1 : AppState := { st with backslash_count := st.backslash_count + 1 }
    if 3 ≤ st1.backslash_count then
      let st2 : AppState := { st1 with is_decrementing := true, backslash_count := 0 }
      if env.writeOk WORKSPACE_STATE_FILE "super-charge-flash" then
        let cmd : AudioCommand :=
          AudioCommand.PlayAndLoop SPECIAL_MODE_SOUND_1 SPECIAL_MODE_SOUND_2
        if env.sendOk cmd then
          (st2, [Effect.writeFile WORKSPACE_STATE_FILE "super-charge-flash",
                 Effect.sendAudio cmd, Effect.spawnDecrementer], true)
        else
          (st2, [Effect.writeFile WORKSPACE_STATE_FILE "super-charge-flash"], false)
      else
        (st2, [], false)
    else
      (st1, [], true)
  else
    let st1 : AppState :=
      { st with backslash_count := 0, keystroke_buffer := st.keystroke_buffer + 1 }
    if st1.target_keystrokes ≤ st1.keystroke_buffer then
      let st2 : AppState :=
        { st1 with keystroke_buffer := 0, counter := st1.counter + 1,
                   target_keystrokes := draw_target st1.game_mode r }
      let cmd : AudioCommand := AudioCommand.Play [INCREMENT_SOUND]
      if env.sendOk cmd then
        if env.writeOk COUNTER_FILE (Nat.repr st2.counter) then
          (st2, [Effect.sendAudio cmd,
                 Effect.writeFile COUNTER_FILE (Nat.repr st2.counter)], true)
        else
          (st2, [Effect.sendAudio cmd], false)
      else
        (st2, [], false)
    else
      (st1, [], true)

/-- A listener dispatching a sequence of key presses (each with its own RNG
oracle draw).  A failed dispatch propagates the error to the listener thread,
which terminates, so the run stops at the first failure. -/
def run_keys (env : Env) (st : AppState) : List (Nat × Nat) → AppState × List Effect × Bool
  | [] => (st, [], true)
  | (k, r) :: rest =>
    let res := process_key_event env k st r
    if res.2.2 then
      let res2 := run_keys env res.1 rest
      (res2.1, res.2.1 ++ res2.2.1, res2.2.2)
    else
      (res.1, res.2.1, false)

/-- One iteration of `decrementer_loop` (main.rs lines 232-253), after the
sleep: the state after the iteration, the effects that happened, and `true`
iff the loop continues (`false` = it hit the `break`).  Write and send errors
are only logged (`eprintln!`), never propagated. -/
def decrementer_tick (env : Env) (st : AppState) : AppState × List Effect × Bool :=
  if 0 < st.counter then
    let st1 : AppState := { st with counter := st.counter - 1 }
    let es : List Effect :=
      if env.writeOk COUNTER_FILE (Nat.repr st1.counter) then
        [Effect.writeFile COUNTER_FILE (Nat.repr st1.counter)]
      else
        []
    (st1, es, true)
  else
    let st1 : AppState := { st with is_decrementing := false }
    let es1 : List Effect :=
      if env.writeOk WORKSPACE_STATE_FILE "flashing" then
        [Effect.writeFile WORKSPACE_STATE_FILE "flashing"]
      else
        []
    let es2 : List Effect :=
      if env.sendOk AudioCommand.Stop then [Effect.sendAudio AudioCommand.Stop] else []
    (st1, es1 ++ es2, false)

/-- `decrementer_loop` run for at most `fuel` iterations.  The final `Bool` is
`true` iff the loop reached its `break` (terminated) within the fuel. -/
def decrementer_run (env : Env) (fuel : Nat) (st : AppState) : AppState × List Effect × Bool :=
  match fuel with
  | 0 => (st, [], false)
  | Nat.succ f =>
    let t := decrementer_tick env st
    if t.2.2 then
      let rest := decrementer_run env f t.1
      (rest.1, t.2.1 ++ rest.2.1, rest.2.2)
    else
      (t.1, t.2.1, true)

/-- Number of `PlayAndLoop` commands sent in an effect trace. -/
def countPlayAndLoop (es : List Effect) : Nat :=
  es.countP (fun e =>
    match e with
    | Effect.sendAudio (AudioCommand.PlayAndLoop _ _) => true
    | _ => false)

/-- Number of `Stop` commands sent in an effect trace. -/
def countStop (es : List Effect) : Nat :=
  es.countP (fun e =>
    match e with
    | Effect.sendAudio AudioCommand.Stop => true
    | _ => false)

/-- Whether some `writeFile` occurs strictly after some `sendAudio` in a
trace (the order the spec's side-effect-ordering sentence forbids). -/
def hasWriteAfterSend : List Effect → Bool
  | [] => false
  | Effect.sendAudio _ :: rest =>
    rest.any (fun e => match e with | Effect.writeFile _ _ => true | _ => false)
      || hasWriteAfterSend rest
  | _ :: rest => hasWriteAfterSend rest

/-- Environment in which every write and every send succeeds. -/
def envAll : Env := ⟨fun _ _ => true, fun _ => true⟩

/-- Environment in which the status-label write fails and everything else
succeeds. -/
def envNoStatus : Env := ⟨fun p _ => !(p == WORKSPACE_STATE_FILE), fun _ => true⟩

/-- Environment in which the counter-file write fails and everything else
succeeds. -/
def envNoCounter : Env := ⟨fun p _ => !(p == COUNTER_FILE), fun _ => true⟩

/-! ### Helper lemmas about single dispatches -/

/-- Evaluation of the bonus-activation branch (trigger key, `counter >= 50`,
`backslash_count == 2`, not decrementing): the state mutations always happen;
the effects and the success flag depend on the environment. -/
theorem process_activation_eq (env : Env) (st : AppState) (r : Nat)
    (hdec : st.is_decrementing = false) (h50 : 50 ≤ st.counter)
    (hbs : st.backslash_count = 2) :
    process_key_event env KEY_BACKSLASH st r =
      ({ st with is_decrementing := true, backslash_count := 0 },
       if env.writeOk WORKSPACE_STATE_FILE "super-charge-flash" then
         if env.sendOk (AudioCommand.PlayAndLoop SPECIAL_MODE_SOUND_1 SPECIAL_MODE_SOUND_2) then
           ([Effect.writeFile WORKSPACE_STATE_FILE "super-charge-flash",
             Effect.sendAudio (AudioCommand.PlayAndLoop SPECIAL_MODE_SOUND_1 SPECIAL_MODE_SOUND_2),
             Effect.spawnDecrementer], true)
         else
           ([Effect.writeFile WORKSPACE_STATE_FILE "super-charge-flash"], false)
       else
         ([], false)) := by
  simp [process_key_event, KEY_BACKSLASH, KEY_ESC, hdec, hbs, h50]
  split_ifs <;> rfl

/-- Evaluation of a trigger-key press with `counter >= 50` that does not yet
complete the combo: only `backslash_count` is incremented. -/
theorem process_trigger_small (env : Env) (st : AppState) (r : Nat)
    (hdec : st.is_decrementing = false) (h50 : 50 ≤ st.counter)
    (hbs : st.backslash_count + 1 < 3) :
    process_key_event env KEY_BACKSLASH st r =
      ({ st with backslash_count := st.backslash_count + 1 }, [], true) := by
  simp [process_key_event, KEY_BACKSLASH, KEY_ESC, hdec, h50, Nat.not_le.mpr hbs]

/-- Shape of a dispatch that falls into the "any other key" branch: the
backslash streak is reset, decrementing stays off, the counter grows by at
most one, and no `PlayAndLoop` is ever sent. -/
theorem process_other_key (env : Env) (key : Nat) (st : AppState) (r : Nat)
    (hesc : key ≠ KEY_ESC) (hdec : st.is_decrementing = false)
    (htrig : ¬(key = KEY_BACKSLASH ∧ 50 ≤ st.counter)) :
    (process_key_event env key st r).1.backslash_count = 0 ∧
    (process_key_event env key st r).1.is_decrementing = false ∧
    st.counter ≤ (process_key_event env key st r).1.counter ∧
    (process_key_event env key st r).1.counter ≤ st.counter + 1 ∧
    countPlayAndLoop (process_key_event env key st r).2.1 = 0 := by
  simp only [process_key_event, if_neg hesc]
  rw [if_neg (by simp [hdec]), if_neg htrig]
  split_ifs <;> simp [countPlayAndLoop, hdec]

/-- Evaluation of an Escape dispatch: the state is untouched; one `Stop` is
sent when the channel send succeeds, and the dispatch fails otherwise. -/
theorem process_escape_eq (env : Env) (st : AppState) (r : Nat) :
    process_key_event env KEY_ESC st r =
      (st,
       if env.sendOk AudioCommand.Stop then [Effect.sendAudio AudioCommand.Stop] else [],
       env.sendOk AudioCommand.Stop) := by
  cases hb : env.sendOk AudioCommand.Stop <;> simp [process_key_event, hb]

/-- Evaluation of a non-Escape dispatch while decrementing: a complete no-op. -/
theorem process_decrementing_eq (env : Env) (key : Nat) (st : AppState) (r : Nat)
    (hesc : key ≠ KEY_ESC) (hdec : st.is_decrementing = true) :
    process_key_event env key st r = (st, [], true) := by
  simp only [process_key_event, if_neg hesc]
  rw [if_pos hdec]

/-- Evaluation of the counter-increment branch ("any other key" with the
keystroke buffer reaching the target): the mutations always happen; the
`Play` command is sent before the counter-file write is attempted. -/
theorem process_increment_eq (env : Env) (key : Nat) (st : AppState) (r : Nat)
    (hesc : key ≠ KEY_ESC) (htrig : ¬(key = KEY_BACKSLASH ∧ 50 ≤ st.counter))
    (hdec : st.is_decrementing = false)
    (hge : st.target_keystrokes ≤ st.keystroke_buffer + 1) :
    process_key_event env key st r =
      ({ st with backslash_count := 0, keystroke_buffer := 0, counter := st.counter + 1,
                 target_keystrokes := draw_target st.game_mode r },
       if env.sendOk (AudioCommand.Play [INCREMENT_SOUND]) then
         if env.writeOk COUNTER_FILE (Nat.repr (st.counter + 1)) then
           ([Effect.sendAudio (AudioCommand.Play [INCREMENT_SOUND]),
             Effect.writeFile COUNTER_FILE (Nat.repr (st.counter + 1))], true)
         else
           ([Effect.sendAudio (AudioCommand.Play [INCREMENT_SOUND])], false)
       else
         ([], false)) := by
  simp only [process_key_event, if_neg hesc]
  rw [if_neg (by simp [hdec]), if_neg htrig, if_pos (by simpa using hge)]
  split_ifs <;> rfl

/-- Evaluation of the "any other key" branch when the buffer stays below the
target: only the streak reset and the buffer increment happen. -/
theorem process_buffer_eq (env : Env) (key : Nat) (st : AppState) (r : Nat)
    (hesc : key ≠ KEY_ESC) (htrig : ¬(key = KEY_BACKSLASH ∧ 50 ≤ st.counter))
    (hdec : st.is_decrementing = false)
    (hlt : st.keystroke_buffer + 1 < st.target_keystrokes) :
    process_key_event env key st r =
      ({ st with backslash_count := 0, keystroke_buffer := st.keystroke_buffer + 1 },
       [], true) := by
  simp only [process_key_event, if_neg hesc]
  rw [if_neg (by simp [hdec]), if_neg htrig, if_neg (by simp; omega)]

/-- `gen_range lo hi r` lies in the inclusive range `[lo, hi]`. -/
theorem gen_range_bounds (lo hi r : Nat) (h : lo ≤ hi) :
    lo ≤ gen_range lo hi r ∧ gen_range lo hi r ≤ hi := by
  unfold gen_range
  have h2 : r % (hi + 1 - lo) < hi + 1 - lo := Nat.mod_lt _ (by omega)
  omega

/-- `countPlayAndLoop` distributes over concatenation. -/
theorem countPlayAndLoop_append (a b : List Effect) :
    countPlayAndLoop (a ++ b) = countPlayAndLoop a + countPlayAndLoop b :=
  List.countP_append _ _ _

/-- Any single dispatch from a non-decrementing state whose streak is still
short keeps decrementing off, grows the streak by at most one, and sends no
`PlayAndLoop`. -/
theorem process_step_tame (env : Env) (k : Nat) (st : AppState) (r : Nat)
    (hdec : st.is_decrementing = false) (hbs : st.backslash_count + 1 ≤ 2) :
    (process_key_event env k st r).1.is_decrementing = false ∧
    (process_key_event env k st r).1.backslash_count ≤ st.backslash_count + 1 ∧
    countPlayAndLoop (process_key_event env k st r).2.1 = 0 := by
  by_cases hesc : k = KEY_ESC
  · subst hesc
    rw [process_escape_eq]
    refine ⟨hdec, Nat.le_succ _, ?_⟩
    show countPlayAndLoop
      (if env.sendOk AudioCommand.Stop = true then [Effect.sendAudio AudioCommand.Stop] else []) = 0
    split_ifs <;> rfl
  · by_cases htrig : k = KEY_BACKSLASH ∧ 50 ≤ st.counter
    · obtain ⟨hk, h50⟩ := htrig
      subst hk
      rw [process_trigger_small env st r hdec h50 (by omega)]
      exact ⟨hdec, by simp, by simp [countPlayAndLoop]⟩
    · have ho := process_other_key env k st r hesc hdec htrig
      exact ⟨ho.2.1, by have := ho.1; omega, ho.2.2.2.2⟩

/-- One unfolding step of `run_keys`. -/
theorem run_keys_cons (env : Env) (st : AppState) (k r : Nat) (rest : List (Nat × Nat)) :
    run_keys env st ((k, r) :: rest) =
      if (process_key_event env k st r).2.2 then
        ((run_keys env (process_key_event env k st r).1 rest).1,
         (process_key_event env k st r).2.1 ++
           (run_keys env (process_key_event env k st r).1 rest).2.1,
         (run_keys env (process_key_event env k st r).1 rest).2.2)
      else
        ((process_key_event env k st r).1, (process_key_event env k st r).2.1, false) := rfl

/-- A run of key presses from a non-decrementing state whose streak cannot be
completed within the run never turns decrementing on and never sends a
`PlayAndLoop`. -/
theorem run_keys_no_activation (env : Env) :
    ∀ (presses : List (Nat × Nat)) (st : AppState),
      st.is_decrementing = false →
      st.backslash_count + presses.length ≤ 2 →
      (run_keys env st presses).1.is_decrementing = false ∧
      (run_keys env st presses).1.backslash_count ≤ st.backslash_count + presses.length ∧
      countPlayAndLoop (run_keys env st presses).2.1 = 0 := by
  intro presses
  induction presses with
  | nil =>
    intro st hdec hb
    exact ⟨hdec, by simp [run_keys], by simp [run_keys, countPlayAndLoop]⟩
  | cons p rest ih =>
    intro st hdec hb
    obtain ⟨k, r⟩ := p
    simp only [List.length_cons] at hb
    have hstep := process_step_tame env k st r hdec (by omega)
    rw [run_keys_cons]
    by_cases hok : (process_key_event env k st r).2.2 = true
    · rw [if_pos hok]
      have ihh := ih (process_key_event env k st r).1 hstep.1
        (by have := hstep.2.1; omega)
      refine ⟨ihh.1, ?_, ?_⟩
      · have h1 := hstep.2.1
        have h2 := ihh.2.1
        simp only [List.length_cons]
        omega
      · rw [countPlayAndLoop_append, hstep.2.2, ihh.2.2]
    · rw [if_neg hok]
      refine ⟨hstep.1, ?_, hstep.2.2⟩
      have := hstep.2.1
      simp only [List.length_cons]
      omega

/-! ### Claims -/

/-- C1: from any state with `counter >= 50`, `bonus_active` (is_decrementing)
false and `backslash_count = 2`, one more trigger-key press activates bonus
exactly once: it sets `is_decrementing := true`, resets `backslash_count` to 0,
persists the status label `super-charge-flash`, enqueues exactly one
`PlayAndLoop`, and spawns the decrementer thread; equivalently, three
consecutive trigger presses from `backslash_count = 0` under the same
preconditions activate bonus exactly once. -/
theorem claim_c1_bonus_activation :
    (∀ (env : Env) (st : AppState) (r : Nat),
      st.is_decrementing = false → 50 ≤ st.counter → st.backslash_count = 2 →
      env.writeOk WORKSPACE_STATE_FILE "super-charge-flash" = true →
      env.sendOk (AudioCommand.PlayAndLoop SPECIAL_MODE_SOUND_1 SPECIAL_MODE_SOUND_2) = true →
      process_key_event env KEY_BACKSLASH st r =
        ({ st with is_decrementing := true, backslash_count := 0 },
         [Effect.writeFile WORKSPACE_STATE_FILE "super-charge-flash",
          Effect.sendAudio (AudioCommand.PlayAndLoop SPECIAL_MODE_SOUND_1 SPECIAL_MODE_SOUND_2),
          Effect.spawnDecrementer], true) ∧
      countPlayAndLoop (process_key_event env KEY_BACKSLASH st r).2.1 = 1) ∧
    (∀ (env : Env) (c k t : Nat) (m : GameMode) (r1 r2 r3 : Nat),
      50 ≤ c →
      env.writeOk WORKSPACE_STATE_FILE "super-charge-flash" = true →
      env.sendOk (AudioCommand.PlayAndLoop SPECIAL_MODE_SOUND_1 SPECIAL_MODE_SOUND_2) = true →
      run_keys env ⟨c, 0, false, k, t, m⟩
          [(KEY_BACKSLASH, r1), (KEY_BACKSLASH, r2), (KEY_BACKSLASH, r3)] =
        (⟨c, 0, true, k, t, m⟩,
         [Effect.writeFile WORKSPACE_STATE_FILE "super-charge-flash",
          Effect.sendAudio (AudioCommand.PlayAndLoop SPECIAL_MODE_SOUND_1 SPECIAL_MODE_SOUND_2),
          Effect.spawnDecrementer], true) ∧
      countPlayAndLoop (run_keys env ⟨c, 0, false, k, t, m⟩
          [(KEY_BACKSLASH, r1), (KEY_BACKSLASH, r2), (KEY_BACKSLASH, r3)]).2.1 = 1) := by
  constructor
  · intro env st r hdec h50 hbs hw hs
    rw [process_activation_eq env st r hdec h50 hbs, if_pos hw, if_pos hs]
    exact ⟨rfl, by simp [countPlayAndLoop]⟩
  · intro env c k t m r1 r2 r3 h50 hw hs
    simp [run_keys, process_key_event, KEY_BACKSLASH, KEY_ESC, h50, hw, hs, countPlayAndLoop]

/-- Witness for C1 at a concrete state. -/
theorem claim_c1_witness :
    process_key_event envAll KEY_BACKSLASH ⟨50, 2, false, 0, 9, GameMode.Normal⟩ 0 =
      (⟨50, 0, true, 0, 9, GameMode.Normal⟩,
       [Effect.writeFile WORKSPACE_STATE_FILE "super-charge-flash",
        Effect.sendAudio (AudioCommand.PlayAndLoop SPECIAL_MODE_SOUND_1 SPECIAL_MODE_SOUND_2),
        Effect.spawnDecrementer], true) ∧
    countPlayAndLoop (run_keys envAll ⟨50, 0, false, 0, 9, GameMode.Normal⟩
        [(KEY_BACKSLASH, 0), (KEY_BACKSLASH, 0), (KEY_BACKSLASH, 0)]).2.1 = 1 :=
  ⟨(claim_c1_bonus_activation.1 envAll ⟨50, 2, false, 0, 9, GameMode.Normal⟩ 0
      rfl (by decide) rfl rfl rfl).1,
   (claim_c1_bonus_activation.2 envAll 50 0 9 GameMode.Normal 0 0 0
      (by decide) rfl rfl).2⟩

/-- C4: while `is_decrementing` is true, every key other than Escape is a
complete no-op: the state is unchanged, nothing is written, no audio command
is sent, and the dispatch succeeds. -/
theorem claim_c4_bonus_noop (env : Env) (key : Nat) (st : AppState) (r : Nat)
    (hesc : key ≠ KEY_ESC) (hdec : st.is_decrementing = true) :
    process_key_event env key st r = (st, [], true) := by
  simp only [process_key_event, if_neg hesc]
  rw [if_pos hdec]

/-- Witness for C4 at a concrete state. -/
theorem claim_c4_witness :
    process_key_event envAll 30 ⟨60, 1, true, 5, 7, GameMode.Normal⟩ 0 =
      (⟨60, 1, true, 5, 7, GameMode.Normal⟩, [], true) :=
  claim_c4_bonus_noop envAll 30 ⟨60, 1, true, 5, 7, GameMode.Normal⟩ 0 (by decide) rfl

/-- C6: dispatching Escape never mutates the state (in any state, including
while decrementing), and when the channel send succeeds it enqueues exactly
one `Stop` command. -/
theorem claim_c6_escape (env : Env) (st : AppState) (r : Nat) :
    (process_key_event env KEY_ESC st r).1 = st ∧
    (env.sendOk AudioCommand.Stop = true →
      (process_key_event env KEY_ESC st r).2.1 = [Effect.sendAudio AudioCommand.Stop] ∧
      countStop (process_key_event env KEY_ESC st r).2.1 = 1) := by
  constructor
  · simp only [process_key_event, if_pos rfl]
    split_ifs <;> rfl
  · intro hs
    simp [process_key_event, hs, countStop]

/-- Witness for C6 at a concrete state (decrementing, to exercise the
"even while bonus-active" part). -/
theorem claim_c6_witness :
    (process_key_event envAll KEY_ESC ⟨60, 2, true, 5, 7, GameMode.Hard⟩ 0).1 =
      ⟨60, 2, true, 5, 7, GameMode.Hard⟩ ∧
    (process_key_event envAll KEY_ESC ⟨60, 2, true, 5, 7, GameMode.Hard⟩ 0).2.1 =
      [Effect.sendAudio AudioCommand.Stop] :=
  have h := claim_c6_escape envAll ⟨60, 2, true, 5, 7, GameMode.Hard⟩ 0
  ⟨h.1, (h.2 rfl).1⟩

/-- C10: bonus activation is not atomic with respect to persistence failure:
if the status-label write fails on the completing trigger press, the dispatch
returns an error, but `is_decrementing` has already been set and
`backslash_count` reset, while no command was enqueued and no decrementer
thread was spawned — the state is left bonus-active with no timer. -/
theorem claim_c10_activation_nonatomic (env : Env) (st : AppState) (r : Nat)
    (hdec : st.is_decrementing = false) (h50 : 50 ≤ st.counter)
    (hbs : st.backslash_count = 2)
    (hw : env.writeOk WORKSPACE_STATE_FILE "super-charge-flash" = false) :
    process_key_event env KEY_BACKSLASH st r =
      ({ st with is_decrementing := true, backslash_count := 0 }, [], false) := by
  rw [process_activation_eq env st r hdec h50 hbs, if_neg (by simp [hw])]

/-- Witness for C10 at a concrete state, with an environment whose
status-label write fails. -/
theorem claim_c10_witness :
    process_key_event envNoStatus KEY_BACKSLASH ⟨71, 2, false, 4, 8, GameMode.Hard⟩ 5 =
      (⟨71, 0, true, 4, 8, GameMode.Hard⟩, [], false) :=
  claim_c10_activation_nonatomic envNoStatus ⟨71, 2, false, 4, 8, GameMode.Hard⟩ 5
    rfl (by decide) rfl (by decide)

/-- C2: a non-trigger, non-Escape key while not decrementing resets the
streak and increments the keystroke buffer; when the incremented buffer
reaches the target, the buffer is reset to 0, the counter grows by exactly 1,
and the target is immediately re-drawn within the active mode's bounds
(Test: exactly 1; Normal: in [1,100]; Hard: in [1,1000]). -/
theorem claim_c2_keystroke_counting (env : Env) (key : Nat) (st : AppState) (r : Nat)
    (hesc : key ≠ KEY_ESC) (htrig : key ≠ KEY_BACKSLASH)
    (hdec : st.is_decrementing = false) :
    (st.keystroke_buffer + 1 < st.target_keystrokes →
      process_key_event env key st r =
        ({ st with backslash_count := 0, keystroke_buffer := st.keystroke_buffer + 1 },
         [], true)) ∧
    (st.target_keystrokes ≤ st.keystroke_buffer + 1 →
      (process_key_event env key st r).1.keystroke_buffer = 0 ∧
      (process_key_event env key st r).1.counter = st.counter + 1 ∧
      (process_key_event env key st r).1.target_keystrokes = draw_target st.game_mode r ∧
      (st.game_mode = GameMode.Test →
        (process_key_event env key st r).1.target_keystrokes = 1) ∧
      (st.game_mode = GameMode.Normal →
        1 ≤ (process_key_event env key st r).1.target_keystrokes ∧
        (process_key_event env key st r).1.target_keystrokes ≤ 100) ∧
      (st.game_mode = GameMode.Hard →
        1 ≤ (process_key_event env key st r).1.target_keystrokes ∧
        (process_key_event env key st r).1.target_keystrokes ≤ 1000)) := by
  have hb : ¬(key = KEY_BACKSLASH ∧ 50 ≤ st.counter) := fun h => htrig h.1
  constructor
  · intro hlt
    exact process_buffer_eq env key st r hesc hb hdec hlt
  · intro hge
    rw [process_increment_eq env key st r hesc hb hdec hge]
    have hN := gen_range_bounds 1 100 r (by omega)
    have hH := gen_range_bounds 1 1000 r (by omega)
    refine ⟨?_, ?_, ?_, ?_, ?_, ?_⟩
    · split_ifs <;> rfl
    · split_ifs <;> rfl
    · split_ifs <;> rfl
    · intro hm
      split_ifs <;> simp [hm, draw_target]
    · intro hm
      split_ifs <;> simp [hm, draw_target] <;> omega
    · intro hm
      split_ifs <;> simp [hm, draw_target] <;> omega

/-- Witness for C2: Test mode, buffer one short of the target. -/
theorem claim_c2_witness :
    (process_key_event envAll 30 ⟨5, 1, false, 0, 1, GameMode.Test⟩ 9).1.keystroke_buffer = 0 ∧
    (process_key_event envAll 30 ⟨5, 1, false, 0, 1, GameMode.Test⟩ 9).1.counter = 6 ∧
    (process_key_event envAll 30 ⟨5, 1, false, 0, 1, GameMode.Test⟩ 9).1.target_keystrokes = 1 :=
  have h := (claim_c2_keystroke_counting envAll 30 ⟨5, 1, false, 0, 1, GameMode.Test⟩ 9
    (by decide) (by decide) rfl).2 (by decide)
  ⟨h.1, h.2.1, h.2.2.2.1 rfl⟩

/-- C5 counterexample: in the counter-increment case the `Play` command is
sent to the audio bus before the counter file is written, so this dispatch
produces both a persistence write and an audio command with the write
occurring after the enqueue — contradicting the claimed ordering. -/
theorem claim_c5_counterexample :
    (process_key_event envAll 30 ⟨0, 0, false, 0, 1, GameMode.Test⟩ 0).2.1 =
      [Effect.sendAudio (AudioCommand.Play [INCREMENT_SOUND]),
       Effect.writeFile COUNTER_FILE "1"] ∧
    hasWriteAfterSend (process_key_event envAll 30 ⟨0, 0, false, 0, 1, GameMode.Test⟩ 0).2.1 =
      true := by
  decide

/-- C5 (amended): in the bonus-activation case the status-label persistence
write happens strictly before the `PlayAndLoop` command is enqueued, but in
the counter-increment case the `Play` command is enqueued strictly before the
counter persistence write (the state mutation still precedes both). -/
theorem claim_c5_effect_order :
    (∀ (env : Env) (st : AppState) (r : Nat),
      st.is_decrementing = false → 50 ≤ st.counter → st.backslash_count = 2 →
      env.writeOk WORKSPACE_STATE_FILE "super-charge-flash" = true →
      env.sendOk (AudioCommand.PlayAndLoop SPECIAL_MODE_SOUND_1 SPECIAL_MODE_SOUND_2) = true →
      (process_key_event env KEY_BACKSLASH st r).2.1 =
        [Effect.writeFile WORKSPACE_STATE_FILE "super-charge-flash",
         Effect.sendAudio (AudioCommand.PlayAndLoop SPECIAL_MODE_SOUND_1 SPECIAL_MODE_SOUND_2),
         Effect.spawnDecrementer] ∧
      hasWriteAfterSend (process_key_event env KEY_BACKSLASH st r).2.1 = false) ∧
    (∀ (env : Env) (key : Nat) (st : AppState) (r : Nat),
      key ≠ KEY_ESC → key ≠ KEY_BACKSLASH → st.is_decrementing = false →
      st.target_keystrokes ≤ st.keystroke_buffer + 1 →
      env.sendOk (AudioCommand.Play [INCREMENT_SOUND]) = true →
      env.writeOk COUNTER_FILE (Nat.repr (st.counter + 1)) = true →
      (process_key_event env key st r).2.1 =
        [Effect.sendAudio (AudioCommand.Play [INCREMENT_SOUND]),
         Effect.writeFile COUNTER_FILE (Nat.repr (st.counter + 1))] ∧
      hasWriteAfterSend (process_key_event env key st r).2.1 = true) := by
  constructor
  · intro env st r hdec h50 hbs hw hs
    rw [process_activation_eq env st r hdec h50 hbs, if_pos hw, if_pos hs]
    exact ⟨rfl, rfl⟩
  · intro env key st r hesc htrig hdec hge hs hw
    rw [process_increment_eq env key st r hesc (fun h => htrig h.1) hdec hge,
      if_pos hs, if_pos hw]
    exact ⟨rfl, rfl⟩

/-- Witness for the amended C5 at concrete states. -/
theorem claim_c5_witness :
    (process_key_event envAll KEY_BACKSLASH ⟨52, 2, false, 1, 30, GameMode.Normal⟩ 3).2.1 =
      [Effect.writeFile WORKSPACE_STATE_FILE "super-charge-flash",
       Effect.sendAudio (AudioCommand.PlayAndLoop SPECIAL_MODE_SOUND_1 SPECIAL_MODE_SOUND_2),
       Effect.spawnDecrementer] ∧
    (process_key_event envAll 30 ⟨7, 0, false, 4, 5, GameMode.Normal⟩ 3).2.1 =
      [Effect.sendAudio (AudioCommand.Play [INCREMENT_SOUND]),
       Effect.writeFile COUNTER_FILE (Nat.repr 8)] :=
  ⟨(claim_c5_effect_order.1 envAll ⟨52, 2, false, 1, 30, GameMode.Normal⟩ 3
      rfl (by decide) rfl rfl rfl).1,
   (claim_c5_effect_order.2 envAll 30 ⟨7, 0, false, 4, 5, GameMode.Normal⟩ 3
      (by decide) (by decide) rfl (by decide) rfl rfl).1⟩

/-- C7 counterexample: Escape is a non-trigger key dispatched with
`bonus_active` false, yet it does not reset `backslash_count` to 0 — the
claim's "every key other than the trigger key" is too broad. -/
theorem claim_c7_counterexample :
    KEY_ESC ≠ KEY_BACKSLASH ∧
    (⟨10, 2, false, 0, 50, GameMode.Normal⟩ : AppState).is_decrementing = false ∧
    (process_key_event envAll KEY_ESC ⟨10, 2, false, 0, 50, GameMode.Normal⟩ 0).1.backslash_count
      = 2 := by
  decide

/-- C7 (amended): the trigger key increments `backslash_count` only when
`counter >= 50`, and every non-trigger, non-Escape key dispatched while not
decrementing resets `backslash_count` to 0 regardless of the counter. -/
theorem claim_c7_streak_discipline :
    (∀ (env : Env) (st : AppState) (r : Nat),
      (process_key_event env KEY_BACKSLASH st r).1.backslash_count =
        st.backslash_count + 1 →
      50 ≤ st.counter) ∧
    (∀ (env : Env) (key : Nat) (st : AppState) (r : Nat),
      key ≠ KEY_ESC → key ≠ KEY_BACKSLASH → st.is_decrementing = false →
      (process_key_event env key st r).1.backslash_count = 0) := by
  constructor
  · intro env st r h
    by_cases hdec : st.is_decrementing = true
    · rw [process_decrementing_eq env KEY_BACKSLASH st r (by decide) hdec] at h
      simp at h
    · have hdec' : st.is_decrementing = false := by simpa using hdec
      by_cases h50 : 50 ≤ st.counter
      · exact h50
      · have ho := process_other_key env KEY_BACKSLASH st r (by decide) hdec'
          (by simp [h50])
        rw [ho.1] at h
        omega
  · intro env key st r hesc htrig hdec
    exact (process_other_key env key st r hesc hdec (fun h => htrig h.1)).1

/-- Witness for the amended C7 at concrete states. -/
theorem claim_c7_witness :
    50 ≤ (⟨60, 0, false, 0, 9, GameMode.Hard⟩ : AppState).counter ∧
    (process_key_event envAll 30 ⟨10, 2, false, 0, 9, GameMode.Hard⟩ 0).1.backslash_count = 0 :=
  ⟨claim_c7_streak_discipline.1 envAll ⟨60, 0, false, 0, 9, GameMode.Hard⟩ 0 (by decide),
   claim_c7_streak_discipline.2 envAll 30 ⟨10, 2, false, 0, 9, GameMode.Hard⟩ 0
     (by decide) (by decide) rfl⟩

/-- C8 counterexample: from `counter = 49`, each trigger press is handled by
the "any other key" branch, which resets the streak — after three presses
`backslash_count` is 0, not 3 as the claim states. -/
theorem claim_c8_counterexample :
    (run_keys envAll ⟨49, 0, false, 0, 100, GameMode.Normal⟩
      [(KEY_BACKSLASH, 0), (KEY_BACKSLASH, 0), (KEY_BACKSLASH, 0)]).1.backslash_count = 0 ∧
    (run_keys envAll ⟨49, 0, false, 0, 100, GameMode.Normal⟩
      [(KEY_BACKSLASH, 0), (KEY_BACKSLASH, 0), (KEY_BACKSLASH, 0)]).1.backslash_count ≠ 3 := by
  decide

/-- C8 (amended): from `counter = 49` and not decrementing, three trigger
presses never activate bonus mode and never enqueue a `PlayAndLoop`; the
first press is handled by the `counter < 50` gate and resets the streak, so
`backslash_count` ends at most 2 (it can only rise above 0 if an intermediate
buffer increment lifts the counter to 50). -/
theorem claim_c8_no_activation_below_50 (env : Env) (st : AppState) (r1 r2 r3 : Nat)
    (hc : st.counter = 49) (hdec : st.is_decrementing = false) :
    (run_keys env st
      [(KEY_BACKSLASH, r1), (KEY_BACKSLASH, r2), (KEY_BACKSLASH, r3)]).1.is_decrementing
      = false ∧
    (run_keys env st
      [(KEY_BACKSLASH, r1), (KEY_BACKSLASH, r2), (KEY_BACKSLASH, r3)]).1.backslash_count
      ≤ 2 ∧
    countPlayAndLoop (run_keys env st
      [(KEY_BACKSLASH, r1), (KEY_BACKSLASH, r2), (KEY_BACKSLASH, r3)]).2.1 = 0 := by
  have htrig : ¬(KEY_BACKSLASH = KEY_BACKSLASH ∧ 50 ≤ st.counter) := by simp [hc]
  have h1 := process_other_key env KEY_BACKSLASH st r1 (by decide) hdec htrig
  rw [run_keys_cons]
  by_cases hok : (process_key_event env KEY_BACKSLASH st r1).2.2 = true
  · rw [if_pos hok]
    have hL := run_keys_no_activation env [(KEY_BACKSLASH, r2), (KEY_BACKSLASH, r3)]
      (process_key_event env KEY_BACKSLASH st r1).1 h1.2.1
      (by have := h1.1; simp only [List.length_cons, List.length_nil]; omega)
    have ha := h1.1
    have hbb := hL.2.1
    simp only [List.length_cons, List.length_nil] at hbb
    refine ⟨hL.1, ?_, ?_⟩
    · exact le_trans hbb (by omega)
    · rw [countPlayAndLoop_append, h1.2.2.2.2, hL.2.2]
  · rw [if_neg hok]
    exact ⟨h1.2.1, le_trans (le_of_eq h1.1) (by omega), h1.2.2.2.2⟩

/-- Witness for the amended C8 at a concrete state. -/
theorem claim_c8_witness :
    (run_keys envAll ⟨49, 1, false, 0, 100, GameMode.Normal⟩
      [(KEY_BACKSLASH, 0), (KEY_BACKSLASH, 0), (KEY_BACKSLASH, 0)]).1.is_decrementing
      = false ∧
    (run_keys envAll ⟨49, 1, false, 0, 100, GameMode.Normal⟩
      [(KEY_BACKSLASH, 0), (KEY_BACKSLASH, 0), (KEY_BACKSLASH, 0)]).1.backslash_count ≤ 2 :=
  have h := claim_c8_no_activation_below_50 envAll ⟨49, 1, false, 0, 100, GameMode.Normal⟩
    0 0 0 rfl rfl
  ⟨h.1, h.2.1⟩

/-- C9: a dispatch succeeds whenever every write and send succeeds; a failed
status-label write in the activation case, or a failed counter write in the
increment case, makes the dispatch return an error (which the listener thread
receives). -/
theorem claim_c9_error_propagation :
    (∀ (env : Env) (key : Nat) (st : AppState) (r : Nat),
      (∀ p c, env.writeOk p c = true) → (∀ c, env.sendOk c = true) →
      (process_key_event env key st r).2.2 = true) ∧
    (∀ (env : Env) (st : AppState) (r : Nat),
      st.is_decrementing = false → 50 ≤ st.counter → st.backslash_count = 2 →
      env.writeOk WORKSPACE_STATE_FILE "super-charge-flash" = false →
      (process_key_event env KEY_BACKSLASH st r).2.2 = false) ∧
    (∀ (env : Env) (key : Nat) (st : AppState) (r : Nat),
      key ≠ KEY_ESC → key ≠ KEY_BACKSLASH → st.is_decrementing = false →
      st.target_keystrokes ≤ st.keystroke_buffer + 1 →
      env.sendOk (AudioCommand.Play [INCREMENT_SOUND]) = true →
      env.writeOk COUNTER_FILE (Nat.repr (st.counter + 1)) = false →
      (process_key_event env key st r).2.2 = false) := by
  refine ⟨?_, ?_, ?_⟩
  · intro env key st r hw hs
    unfold process_key_event
    simp only [hw, hs]
    split_ifs <;> simp
  · intro env st r hdec h50 hbs hw
    rw [process_activation_eq env st r hdec h50 hbs, if_neg (by simp [hw])]
  · intro env key st r hesc htrig hdec hge hs hw
    rw [process_increment_eq env key st r hesc (fun h => htrig h.1) hdec hge,
      if_pos hs, if_neg (by simp [hw])]

/-- `countStop` distributes over concatenation. -/
theorem countStop_append (a b : List Effect) :
    countStop (a ++ b) = countStop a + countStop b :=
  List.countP_append _ _ _

/-- `Nat.repr` on the small literals appearing in the decrementer scenario. -/
theorem Nat_repr_one : Nat.repr 1 = "1" := rfl

/-- `Nat.repr` on 0. -/
theorem Nat_repr_zero : Nat.repr 0 = "0" := rfl

/-- A decrementer iteration with a positive counter: decrement by one,
attempt the counter write (failure only logged), and continue. -/
theorem decrementer_tick_pos (env : Env) (st : AppState) (h : 0 < st.counter) :
    decrementer_tick env st =
      ({ st with counter := st.counter - 1 },
       if env.writeOk COUNTER_FILE (Nat.repr (st.counter - 1)) then
         [Effect.writeFile COUNTER_FILE (Nat.repr (st.counter - 1))]
       else [], true) := by
  simp [decrementer_tick, h]

/-- A decrementer iteration with the counter at zero: clear the flag, attempt
the status write, attempt the `Stop` send, and break. -/
theorem decrementer_tick_zero (env : Env) (st : AppState) (hc : st.counter = 0) :
    decrementer_tick env st =
      ({ st with is_decrementing := false },
       (if env.writeOk WORKSPACE_STATE_FILE "flashing" then
          [Effect.writeFile WORKSPACE_STATE_FILE "flashing"] else []) ++
       (if env.sendOk AudioCommand.Stop then [Effect.sendAudio AudioCommand.Stop] else []),
       false) := by
  simp [decrementer_tick, hc]

/-- One unfolding step of `decrementer_run` when the counter is positive. -/
theorem decrementer_run_succ_cont (env : Env) (f : Nat) (st : AppState)
    (h : 0 < st.counter) :
    decrementer_run env (f + 1) st =
      ((decrementer_run env f { st with counter := st.counter - 1 }).1,
       (if env.writeOk COUNTER_FILE (Nat.repr (st.counter - 1)) then
          [Effect.writeFile COUNTER_FILE (Nat.repr (st.counter - 1))] else []) ++
         (decrementer_run env f { st with counter := st.counter - 1 }).2.1,
       (decrementer_run env f { st with counter := st.counter - 1 }).2.2) := by
  have ht := decrementer_tick_pos env st h
  show (let t := decrementer_tick env st;
        if t.2.2 = true then
          let rest := decrementer_run env f t.1;
          (rest.1, t.2.1 ++ rest.2.1, rest.2.2)
        else (t.1, t.2.1, true)) = _
  rw [ht]
  rfl

/-- The decrementer loop, given `counter + 1` iterations of fuel, always
reaches its exit: the counter ends at 0, the flag is cleared, and exactly one
`Stop` is sent iff the send succeeds — in every environment, so persistence
failures never stop the countdown. -/
theorem decrementer_run_complete (env : Env) :
    ∀ (n : Nat) (st : AppState), st.counter = n →
      (decrementer_run env (n + 1) st).1 =
        { st with counter := 0, is_decrementing := false } ∧
      (decrementer_run env (n + 1) st).2.2 = true ∧
      countStop (decrementer_run env (n + 1) st).2.1 =
        (if env.sendOk AudioCommand.Stop = true then 1 else 0) := by
  intro n
  induction n with
  | zero =>
    intro st hc
    obtain ⟨c, b, d, k, t, m⟩ := st
    subst hc
    refine ⟨?_, ?_, ?_⟩ <;>
      simp [decrementer_run, decrementer_tick, countStop] <;>
      split_ifs <;> simp [countStop]
  | succ m ih =>
    intro st hc
    have ihh := ih { st with counter := st.counter - 1 } (by simp [hc])
    rw [decrementer_run_succ_cont env (m + 1) st (by omega)]
    refine ⟨?_, ?_, ?_⟩
    · rw [ihh.1]
    · exact ihh.2.1
    · rw [countStop_append, ihh.2.2]
      split_ifs <;> simp [countStop]

/-- C3: the Bonus Timer decrements the counter by exactly 1 per iteration
while it is positive and keeps ticking regardless of persistence failures; it
never takes the counter below 0; when the counter is 0 it clears the flag,
persists `flashing`, sends exactly one `Stop`, and breaks; it always
terminates within `counter + 1` iterations with exactly one `Stop` sent; and
from `counter = 2` while bonus-active, two decrement ticks bring the counter
to 0 and the loop then finishes as described. -/
theorem claim_c3_decrementer :
    (∀ (env : Env) (st : AppState), 0 < st.counter →
      (decrementer_tick env st).1.counter = st.counter - 1 ∧
      (decrementer_tick env st).1.is_decrementing = st.is_decrementing ∧
      (decrementer_tick env st).2.2 = true) ∧
    (∀ (env : Env) (st : AppState),
      (decrementer_tick env st).1.counter = st.counter - 1) ∧
    (∀ (env : Env) (st : AppState), st.counter = 0 →
      (decrementer_tick env st).1.is_decrementing = false ∧
      (decrementer_tick env st).2.2 = false ∧
      (env.sendOk AudioCommand.Stop = true →
        countStop (decrementer_tick env st).2.1 = 1) ∧
      (env.writeOk WORKSPACE_STATE_FILE "flashing" = true →
        Effect.writeFile WORKSPACE_STATE_FILE "flashing" ∈ (decrementer_tick env st).2.1)) ∧
    (∀ (env : Env) (st : AppState), env.sendOk AudioCommand.Stop = true →
      (decrementer_run env (st.counter + 1) st).2.2 = true ∧
      (decrementer_run env (st.counter + 1) st).1 =
        { st with counter := 0, is_decrementing := false } ∧
      countStop (decrementer_run env (st.counter + 1) st).2.1 = 1) ∧
    (∀ (env : Env), (∀ p c, env.writeOk p c = true) → (∀ cmd, env.sendOk cmd = true) →
      ∀ (b k t : Nat) (m : GameMode),
        decrementer_run env 3 ⟨2, b, true, k, t, m⟩ =
          (⟨0, b, false, k, t, m⟩,
           [Effect.writeFile COUNTER_FILE "1", Effect.writeFile COUNTER_FILE "0",
            Effect.writeFile WORKSPACE_STATE_FILE "flashing",
            Effect.sendAudio AudioCommand.Stop], true)) := by
  refine ⟨?_, ?_, ?_, ?_, ?_⟩
  · intro env st h
    rw [decrementer_tick_pos env st h]
    exact ⟨rfl, rfl, rfl⟩
  · intro env st
    by_cases h : 0 < st.counter
    · rw [decrementer_tick_pos env st h]
    · have hc : st.counter = 0 := by omega
      simp [decrementer_tick_zero env st hc, hc]
  · intro env st hc
    rw [decrementer_tick_zero env st hc]
    refine ⟨rfl, rfl, ?_, ?_⟩
    · intro hs
      rw [countStop_append]
      split_ifs <;> simp_all [countStop]
    · intro hw
      simp [hw]
  · intro env st hs
    have h := decrementer_run_complete env st.counter st rfl
    exact ⟨h.2.1, h.1, by rw [h.2.2, if_pos hs]⟩
  · intro env hw hs b k t m
    simp [decrementer_run, decrementer_tick, hw, hs, Nat_repr_one, Nat_repr_zero]

/-- Witness for C3: a tick with a failing counter write still decrements and
continues, and the concrete counter=2 scenario runs to completion. -/
theorem claim_c3_witness :
    (decrementer_tick envNoCounter ⟨5, 0, true, 0, 1, GameMode.Test⟩).1.counter = 4 ∧
    (decrementer_tick envNoCounter ⟨5, 0, true, 0, 1, GameMode.Test⟩).2.2 = true ∧
    decrementer_run envAll 3 ⟨2, 0, true, 4, 9, GameMode.Normal⟩ =
      (⟨0, 0, false, 4, 9, GameMode.Normal⟩,
       [Effect.writeFile COUNTER_FILE "1", Effect.writeFile COUNTER_FILE "0",
        Effect.writeFile WORKSPACE_STATE_FILE "flashing",
        Effect.sendAudio AudioCommand.Stop], true) :=
  have h1 := claim_c3_decrementer.1 envNoCounter ⟨5, 0, true, 0, 1, GameMode.Test⟩ (by decide)
  have h5 := claim_c3_decrementer.2.2.2.2 envAll (fun _ _ => rfl) (fun _ => rfl)
    0 4 9 GameMode.Normal
  ⟨h1.1, h1.2.2, h5⟩

/-- Witness for C9: a successful dispatch, a failed activation write, and a
failed counter write, each at a concrete state. -/
theorem claim_c9_witness :
    (process_key_event envAll 30 ⟨5, 1, false, 0, 3, GameMode.Normal⟩ 0).2.2 = true ∧
    (process_key_event envNoStatus KEY_BACKSLASH ⟨64, 2, false, 0, 3, GameMode.Normal⟩ 0).2.2
      = false ∧
    (process_key_event envNoCounter 30 ⟨5, 1, false, 2, 3, GameMode.Normal⟩ 0).2.2 = false :=
  ⟨claim_c9_error_propagation.1 envAll 30 ⟨5, 1, false, 0, 3, GameMode.Normal⟩ 0
     (fun _ _ => rfl) (fun _ => rfl),
   claim_c9_error_propagation.2.1 envNoStatus ⟨64, 2, false, 0, 3, GameMode.Normal⟩ 0
     rfl (by decide) rfl (by decide),
   claim_c9_error_propagation.2.2 envNoCounter 30 ⟨5, 1, false, 2, 3, GameMode.Normal⟩ 0
     (by decide) (by decide) rfl (by decide) rfl (by decide)⟩

end KeyCounterDaemon
